import Mathlib

/-!
Verification development for the AutopassGui application
(`src/autopassgui/app.py`).

The file shallowly embeds the non-GUI logic of the application:

* the JSON configuration layer (`default_settings`, `load_config`,
  `save_config`) over an inductive `Json` type, with Python dict
  semantics (string keys, later duplicate wins, `{**d, **data}` merge
  realised as list append with last-wins lookup);
* the application state (`AppState`) holding the in-memory
  configuration, the lock flag, the last-activity timestamp, the text
  of the relevant labels/inputs, the last written settings file, and
  the serial connection with its write/read logs;
* the lock operations `lock_app`, `unlock_app`, `attempt_unlock`,
  the auto-lock operations `check_auto_lock` and `update_activity`,
  the serial operation `send_command`, and the settings-dialog
  callback `change_lock_pin.on_save` (`on_save`).

Modelling conventions: wall-clock time (`time.time()`) is passed in as
an integer `now` parameter; JSON numbers are modelled as integers
(the configuration only holds integers); GUI widgets other than the
text fields read or written by the embedded functions are omitted;
the `threading.Timer` handle is not modelled — `check_auto_lock` is the
timer's callback body and `update_activity` the activity hook.
-/

/-- JSON values as produced by Python's `json.load` on the settings
file.  Objects are association lists of string keys; Python keeps the
last occurrence of a duplicated key, which `objLookup` mirrors.
Floating-point numbers are not modelled: the configuration record only
contains booleans, strings and integers. -/
inductive Json where
  | null
  | bool (b : Bool)
  | num (n : Int)
  | str (s : String)
  | arr (elems : List Json)
  | obj (fields : List (String × Json))

/-- Lookup in a Python-dict-like association list: the LAST binding of
a key wins, matching `dict` construction from a JSON object. -/
def objLookup : List (String × Json) → String → Option Json
  | [], _ => none
  | (k', v) :: rest, k =>
      match objLookup rest k with
      | some w => some w
      | none => if k' = k then some v else none

/-- Lookup of a top-level key in a JSON value; non-objects have no
keys. -/
def jsonLookup : Json → String → Option Json
  | .obj fields, k => objLookup fields k
  | _, _ => none

/-- Lookup of a key nested one level down (e.g. `config["lock"]["pin"]`). -/
def nestedLookup (j : Json) (k1 k2 : String) : Option Json :=
  match jsonLookup j k1 with
  | some j' => jsonLookup j' k2
  | none => none

namespace ConfigFile

/-- The fields of `ArduinoControlApp.default_settings`
(`app.py` lines 39-54), in source order. -/
def defaultFields : List (String × Json) :=
  [("labels", .obj
      [("password1", .str "Send Password 1"),
       ("password2", .str "Send Password 2"),
       ("password3", .str "Send Password 3"),
       ("password4", .str "Send Password 4")]),
   ("theme", .str "dark"),
   ("lock", .obj
      [("enabled", .bool false),
       ("pin", .str ""),
       ("auto_lock_timeout", .num 0)])]

/-- `ArduinoControlApp.default_settings` (`app.py` lines 39-54). -/
def default_settings : Json := .obj defaultFields

/-- State of the settings file on disk as seen by `load_config`:
absent, present but not valid JSON, or present with a parsed JSON
value. -/
inductive FileState where
  | missing
  | corrupt
  | stored (j : Json)

/-- `ArduinoControlApp.load_config` (`app.py` lines 56-65).

* missing file: return the defaults;
* file that fails to parse: the exception is caught, return the
  defaults;
* parsed object `data`: return `{**self.default_settings(), **data}`,
  i.e. the default bindings followed by the file's bindings (later
  bindings win on lookup) — a top-level-only merge;
* parsed non-object: the `{** ...}` unpacking raises `TypeError`,
  which the surrounding `except Exception` catches, returning the
  defaults. -/
def load_config : FileState → Json
  | .missing => default_settings
  | .corrupt => default_settings
  | .stored (.obj fields) => .obj (defaultFields ++ fields)
  | .stored _ => default_settings

/-- `ArduinoControlApp.save_config` (`app.py` lines 67-70) serialises
the in-memory configuration with `json.dump`; reading that file back
with `json.load` reproduces the same JSON value, so at the model level
saving produces a stored file holding the configuration itself. -/
def save_config_file (config : Json) : FileState := .stored config

end ConfigFile

theorem objLookup_append (a b : List (String × Json)) (k : String) :
    objLookup (a ++ b) k =
      match objLookup b k with
      | some v => some v
      | none => objLookup a k := by
  induction a with
  | nil =>
    simp only [List.nil_append]
    cases hb : objLookup b k <;> simp [objLookup, hb]
  | cons p rest ih =>
    obtain ⟨k', v⟩ := p
    simp only [List.cons_append, objLookup]
    rw [List.append_eq, ih]
    cases hb : objLookup b k <;> cases hr : objLookup rest k <;> simp

theorem objLookup_defaultFields_cases (k : String)
    (h : (objLookup ConfigFile.defaultFields k).isSome) :
    k = "labels" ∨ k = "theme" ∨ k = "lock" := by
  by_cases h1 : "labels" = k
  · exact Or.inl h1.symm
  by_cases h2 : "theme" = k
  · exact Or.inr (Or.inl h2.symm)
  by_cases h3 : "lock" = k
  · exact Or.inr (Or.inr h3.symm)
  · exfalso
    simp [ConfigFile.defaultFields, objLookup, h1, h2, h3] at h

/-- C2 (counterexample): the merge in `load_config` is shallow, so a
default key nested inside a sub-record that IS present in the file does
not take its default value.  With file contents
`{"lock": {"enabled": true}}`, the loaded configuration's `lock` record
has no `pin` key at all, although the defaults give `lock.pin` the
value `""`. -/
theorem c2_counterexample :
    nestedLookup
        (ConfigFile.load_config
          (.stored (.obj [("lock", Json.obj [("enabled", Json.bool true)])])))
        "lock" "pin" = none
    ∧ nestedLookup ConfigFile.default_settings "lock" "pin"
        = some (Json.str "") := ⟨rfl, rfl⟩

/-- C2 (amended): `load_config` merges at the top level only: every
top-level key present in the file keeps its file value (no present key
is dropped), and every top-level default key missing from the file
takes its default value wholesale; keys nested inside the `labels` and
`lock` sub-records are not individually merged — a sub-record present
in the file replaces the default sub-record entirely. -/
theorem c2_top_level_merge (fields : List (String × Json)) (k : String) :
    (∀ v, objLookup fields k = some v →
      jsonLookup (ConfigFile.load_config (.stored (.obj fields))) k = some v)
    ∧ (objLookup fields k = none →
      jsonLookup (ConfigFile.load_config (.stored (.obj fields))) k
        = objLookup ConfigFile.defaultFields k) := by
  constructor
  · intro v hv
    simp only [ConfigFile.load_config, jsonLookup, objLookup_append, hv]
  · intro hnone
    simp only [ConfigFile.load_config, jsonLookup, objLookup_append, hnone]

theorem c2_top_level_merge_witness :
    jsonLookup
        (ConfigFile.load_config (.stored (.obj [("theme", Json.str "light")])))
        "theme" = some (Json.str "light")
    ∧ jsonLookup
        (ConfigFile.load_config (.stored (.obj [("theme", Json.str "light")])))
        "lock" = objLookup ConfigFile.defaultFields "lock" :=
  ⟨(c2_top_level_merge [("theme", Json.str "light")] "theme").1
      (Json.str "light") rfl,
   (c2_top_level_merge [("theme", Json.str "light")] "lock").2 rfl⟩

/-- C3: saving the in-memory configuration with `save_config` and
loading it back with `load_config` returns the same configuration
record.  A configuration record (spec data model: `labels`, `theme`,
`lock`; every in-memory configuration the program builds has these
three top-level keys, since `load_config` merges over the defaults and
`reset_settings` installs the defaults) satisfies the hypotheses; the
conclusion is key-wise equality of the reloaded and original objects at
every key, which is Python `dict` equality for string-keyed
dictionaries. -/
theorem c3_save_load_roundtrip (fields : List (String × Json))
    (hl : (objLookup fields "labels").isSome)
    (ht : (objLookup fields "theme").isSome)
    (hk : (objLookup fields "lock").isSome) (k : String) :
    jsonLookup
        (ConfigFile.load_config (ConfigFile.save_config_file (.obj fields))) k
      = objLookup fields k := by
  simp only [ConfigFile.save_config_file, ConfigFile.load_config, jsonLookup,
    objLookup_append]
  cases hf : objLookup fields k with
  | some v => rfl
  | none =>
    cases hd : objLookup ConfigFile.defaultFields k with
    | none => rfl
    | some v =>
      exfalso
      rcases objLookup_defaultFields_cases k (by rw [hd]; rfl) with h | h | h <;>
        subst h <;> simp_all

theorem c3_witness :
    jsonLookup
        (ConfigFile.load_config
          (ConfigFile.save_config_file (.obj ConfigFile.defaultFields)))
        "theme"
      = objLookup ConfigFile.defaultFields "theme" :=
  c3_save_load_roundtrip ConfigFile.defaultFields rfl rfl rfl "theme"

/-- C7: a missing settings file or a file whose contents fail to parse
as JSON makes `load_config` return the hardcoded defaults; every
exception is caught inside `load_config`, so (as the totality of the
embedded function reflects) no error reaches the caller. -/
theorem c7_load_config_fallback :
    ConfigFile.load_config ConfigFile.FileState.missing
        = ConfigFile.default_settings
    ∧ ConfigFile.load_config ConfigFile.FileState.corrupt
        = ConfigFile.default_settings := ⟨rfl, rfl⟩

/-- The `lock` sub-record of the configuration (`app.py` lines 49-53):
`enabled` flag, plaintext PIN, auto-lock timeout in seconds. -/
structure LockConfig where
  enabled : Bool
  pin : String
  auto_lock_timeout : Int
deriving DecidableEq

/-- The in-memory configuration record per the data model: button
label mapping, theme string, lock sub-record.  `ArduinoControlApp`
accesses `self.config` through these fields. -/
structure Config where
  labels : List (String × String)
  theme : String
  lock : LockConfig
deriving DecidableEq

/-- The mutable state of `ArduinoControlApp` relevant to the embedded
operations: the in-memory configuration, the lock flag `is_locked`,
the `last_activity` timestamp, the text of the PIN input, unlock
status label, main log label and settings-dialog status label, the
last contents written to `settings.json` (`savedFile`, `none` before
any save), the serial handle `ser` (`none` = no connection object,
`some b` = a connection whose `is_open` is `b`), the log of byte
sequences written to the serial device, and a count of reads from it
(the application never reads, so no operation increments it). -/
structure AppState where
  config : Config
  is_locked : Bool
  last_activity : Int
  pin_input : String
  unlock_status : String
  log_label : String
  status_label : String
  savedFile : Option Config
  ser : Option Bool
  written : List (List Nat)
  reads : Nat
deriving DecidableEq

/-- `ArduinoControlApp.save_config` (`app.py` lines 67-70): write the
in-memory configuration to `settings.json`. -/
def save_config (s : AppState) : AppState :=
  { s with savedFile := some s.config }

/-- `ArduinoControlApp.lock_app` (`app.py` lines 533-540). -/
def lock_app (s : AppState) : AppState :=
  let s :=
    { s with
      is_locked := true,
      config :=
        { s.config with lock := { s.config.lock with enabled := true } } }
  let s := save_config s
  { s with log_label := "Application locked" }

/-- `ArduinoControlApp.unlock_app` (`app.py` lines 560-570); `now` is
the value of `time.time()` stored into `last_activity`. -/
def unlock_app (s : AppState) (now : Int) : AppState :=
  let s :=
    { s with
      is_locked := false,
      config :=
        { s.config with lock := { s.config.lock with enabled := false } } }
  let s := save_config s
  { s with
    pin_input := "",
    unlock_status := "",
    last_activity := now,
    log_label := "Application unlocked" }

/-- `ArduinoControlApp.attempt_unlock` (`app.py` lines 542-558).  The
entered PIN is `self.pin_input.value or ""`, modelled by the
`pin_input` field (empty string for an empty widget). -/
def attempt_unlock (s : AppState) (now : Int) : AppState :=
  let stored_pin := s.config.lock.pin
  if stored_pin = "" then
    unlock_app s now
  else
    let entered_pin := s.pin_input
    if entered_pin = stored_pin then
      unlock_app s now
    else
      { s with unlock_status := "Incorrect PIN", pin_input := "" }

/-- `ArduinoControlApp.check_auto_lock` (`app.py` lines 588-611): the
body of the repeating timer callback.  `now` is `time.time()` at the
moment of the check; the `auto_lock_task` deferred to the main thread
runs `lock_app` and then sets the log label.  Timer rescheduling
(`start_auto_lock_timer`) manages a thread handle and does not change
any modelled field. -/
def check_auto_lock (s : AppState) (now : Int) : AppState :=
  if s.is_locked then s
  else
    let timeout_seconds := s.config.lock.auto_lock_timeout
    if 0 < timeout_seconds then
      if timeout_seconds ≤ now - s.last_activity then
        let s := lock_app s
        { s with
          log_label := "Auto-locked after " ++ toString timeout_seconds
            ++ " seconds of inactivity" }
      else s
    else s

/-- `ArduinoControlApp.update_activity` (`app.py` lines 613-617):
record `time.time()` as the last activity; restarting the auto-lock
timer only touches the unmodelled thread handle. -/
def update_activity (s : AppState) (now : Int) : AppState :=
  { s with last_activity := now }

/-- UTF-8 encoding of a single character into bytes (as `str.encode()`
produces for each code point): 1-4 bytes depending on the scalar
value. -/
def utf8EncodeCharNat (c : Char) : List Nat :=
  let v := c.toNat
  if v < 0x80 then [v]
  else if v < 0x800 then
    [0xC0 ||| (v >>> 6),
     0x80 ||| (v &&& 0x3F)]
  else if v < 0x10000 then
    [0xE0 ||| (v >>> 12),
     0x80 ||| ((v >>> 6) &&& 0x3F),
     0x80 ||| (v &&& 0x3F)]
  else
    [0xF0 ||| (v >>> 18),
     0x80 ||| ((v >>> 12) &&& 0x3F),
     0x80 ||| ((v >>> 6) &&& 0x3F),
     0x80 ||| (v &&& 0x3F)]

/-- `str.encode()`: the UTF-8 bytes of a string. -/
def utf8Bytes (str : String) : List Nat :=
  str.data.flatMap utf8EncodeCharNat

/-- `ArduinoControlApp.send_command` (`app.py` lines 1174-1184).
Returns the new state and the message of the dialog shown, if any:
when `self.ser` is a connection and open, `(cmd + "\n").encode()` is
written and the log label updated; otherwise the "Not Connected" info
dialog is shown and nothing is written. -/
def send_command (s : AppState) (cmd : String) (now : Int) :
    AppState × Option String :=
  let s := update_activity s now
  match s.ser with
  | some true =>
      ({ s with
          written := s.written ++ [utf8Bytes (cmd ++ "\n")],
          log_label := "Sent: " ++ cmd }, none)
  | _ => (s, some "Connect to Arduino first!")

/-- Strip leading and trailing whitespace from a character list, as
`int()` does before parsing. -/
def pyStrip (cs : List Char) : List Char :=
  ((cs.dropWhile fun c => c.isWhitespace).reverse.dropWhile
    fun c => c.isWhitespace).reverse

/-- The numeric value of a list of decimal digits. -/
def digitsToNat (cs : List Char) : Nat :=
  cs.foldl (fun acc c => acc * 10 + (c.toNat - 48)) 0

/-- Python's `int(text)` on the timeout field: strip surrounding
whitespace, optional sign, then ASCII decimal digits; anything else
raises `ValueError` (modelled as `none`).  Underscore digit grouping
and non-ASCII decimal digits are not modelled. -/
def pyParseInt (text : String) : Option Int :=
  match pyStrip text.data with
  | [] => none
  | c :: rest =>
    let signed : Bool × List Char :=
      if c = '-' then (true, rest)
      else if c = '+' then (false, rest)
      else (false, c :: rest)
    let neg := signed.1
    let core := signed.2
    if core ≠ [] ∧ core.all Char.isDigit then
      some (if neg then -(digitsToNat core : Int) else (digitsToNat core : Int))
    else none

/-- The timeout-saving tail of `change_lock_pin.on_save`
(`app.py` lines 1059-1075): parse `int(timeout_input.value or "0")`;
on success clamp negatives to `0`, store the timeout and
`save_config`; on `ValueError` set the status label and return WITHOUT
saving.  Timer start/stop only touches the unmodelled thread
handle. -/
def on_save_timeout (s : AppState) (timeout_text : String) : AppState :=
  match pyParseInt (if timeout_text = "" then "0" else timeout_text) with
  | some v =>
      let v := if v < 0 then 0 else v
      let s :=
        { s with
          config :=
            { s.config with
              lock := { s.config.lock with auto_lock_timeout := v } } }
      save_config s
  | none => { s with status_label := "Invalid timeout value" }

/-- The `on_save` callback of `ArduinoControlApp.change_lock_pin`
(`app.py` lines 1016-1075).  The four string arguments are the values
of the current-PIN, new-PIN, confirm-PIN and timeout text inputs
(each already defaulted to `""` as by `value or ""`; when no PIN is
set the dialog shows only the first PIN input). -/
def on_save (s : AppState)
    (current_pin_text new_pin_text confirm_pin_text timeout_text : String) :
    AppState :=
  let current_pin := s.config.lock.pin
  if current_pin ≠ "" then
    if current_pin_text ≠ current_pin then
      { s with status_label := "Current PIN is incorrect" }
    else
      let new_pin := new_pin_text
      let confirm_pin := confirm_pin_text
      if new_pin ≠ confirm_pin then
        { s with status_label := "New PINs don't match" }
      else
        let s1 :=
          if new_pin = "" then
            { s with
              is_locked := false,
              config :=
                { s.config with
                  lock :=
                    { s.config.lock with pin := "", enabled := false } },
              status_label := "Lock disabled" }
          else
            { s with
              config :=
                { s.config with
                  lock := { s.config.lock with pin := new_pin } },
              status_label := "PIN changed successfully" }
        on_save_timeout s1 timeout_text
  else
    let new_pin := current_pin_text
    let s1 :=
      if new_pin = "" then
        { s with
          is_locked := false,
          config :=
            { s.config with
              lock := { s.config.lock with pin := "", enabled := false } },
          status_label := "Lock disabled" }
      else
        { s with
          config :=
            { s.config with lock := { s.config.lock with pin := new_pin } },
          status_label := "PIN set successfully" }
    on_save_timeout s1 timeout_text

/-- `ArduinoControlApp.__init__` (`app.py` lines 19-37) restricted to
the modelled fields: no serial handle, configuration loaded from disk
(`c`, already merged), `is_locked` taken from the configuration's
`lock.enabled`, `last_activity` set to `time.time()` (`now`).  `file`
is the on-disk configuration the load came from (`__init__` does not
write the file). -/
def init_state (c : Config) (now : Int) (file : Option Config) : AppState :=
  { config := c,
    is_locked := c.lock.enabled,
    last_activity := now,
    pin_input := "",
    unlock_status := "",
    log_label := "",
    status_label := "",
    savedFile := file,
    ser := none,
    written := [],
    reads := 0 }

/-- The invariant of claim C10: the UI lock flag agrees with the
persisted-configuration flag. -/
def lockInvariant (s : AppState) : Prop :=
  s.is_locked = s.config.lock.enabled

instance (s : AppState) : Decidable (lockInvariant s) := by
  unfold lockInvariant
  infer_instance

/-- The default button-label mapping, as a `Config.labels` value. -/
def defaultLabels : List (String × String) :=
  [("password1", "Send Password 1"),
   ("password2", "Send Password 2"),
   ("password3", "Send Password 3"),
   ("password4", "Send Password 4")]

def sampleConfig : Config :=
  { labels := defaultLabels,
    theme := "dark",
    lock := { enabled := true, pin := "1234", auto_lock_timeout := 60 } }

def sampleLocked : AppState :=
  { config := sampleConfig,
    is_locked := true,
    last_activity := 0,
    pin_input := "9999",
    unlock_status := "",
    log_label := "",
    status_label := "",
    savedFile := some sampleConfig,
    ser := none,
    written := [],
    reads := 0 }

def sampleUnlocked : AppState :=
  { sampleLocked with
    is_locked := false,
    pin_input := "",
    config :=
      { sampleConfig with lock := { sampleConfig.lock with enabled := false } } }

/-- C1: with a non-empty stored PIN and an entered PIN different from
it, `attempt_unlock` takes the "Incorrect PIN" branch: the application
stays locked, the in-memory configuration (hence its lock sub-record:
enabled flag, pin, auto_lock_timeout) is untouched, and `save_config`
is not called, so the persisted configuration is unchanged. -/
theorem c1_wrong_pin_does_not_unlock (s : AppState) (now : Int)
    (hpin : s.config.lock.pin ≠ "")
    (hwrong : s.pin_input ≠ s.config.lock.pin)
    (hlocked : s.is_locked = true) :
    (attempt_unlock s now).is_locked = true
    ∧ (attempt_unlock s now).config = s.config
    ∧ (attempt_unlock s now).savedFile = s.savedFile := by
  unfold attempt_unlock
  rw [if_neg hpin, if_neg hwrong]
  exact ⟨hlocked, rfl, rfl⟩

theorem c1_witness :
    (attempt_unlock sampleLocked 5).is_locked = true
    ∧ (attempt_unlock sampleLocked 5).config = sampleLocked.config
    ∧ (attempt_unlock sampleLocked 5).savedFile = sampleLocked.savedFile :=
  c1_wrong_pin_does_not_unlock sampleLocked 5 (by decide) (by decide) rfl

/-- C9: with an empty stored PIN, `attempt_unlock` unlocks immediately
via `unlock_app`, whatever the PIN input holds (the entered PIN is not
even read in that branch). -/
theorem c9_empty_pin_unlocks (s : AppState) (now : Int)
    (hpin : s.config.lock.pin = "") :
    (attempt_unlock s now).is_locked = false
    ∧ (attempt_unlock s now).config.lock.enabled = false := by
  simp [attempt_unlock, hpin, unlock_app, save_config]

def sampleNoPin : AppState :=
  { sampleLocked with
    pin_input := "whatever",
    config :=
      { sampleConfig with lock := { sampleConfig.lock with pin := "" } } }

theorem c9_witness :
    (attempt_unlock sampleNoPin 7).is_locked = false
    ∧ (attempt_unlock sampleNoPin 7).config.lock.enabled = false :=
  c9_empty_pin_unlocks sampleNoPin 7 rfl

/-- C4: with a positive configured timeout and the application
unlocked, the auto-lock check transitions to the locked state exactly
when the elapsed time since the last recorded activity reaches the
timeout (`time.time() - self.last_activity >= timeout_seconds`), and
recording activity stores the current time into `last_activity`. -/
theorem c4_auto_lock_iff (s : AppState) (now : Int)
    (s2 : AppState) (t : Int)
    (hunlocked : s.is_locked = false)
    (hpos : 0 < s.config.lock.auto_lock_timeout) :
    ((check_auto_lock s now).is_locked = true ↔
      s.config.lock.auto_lock_timeout ≤ now - s.last_activity)
    ∧ (update_activity s2 t).last_activity = t := by
  refine ⟨?_, rfl⟩
  by_cases hel : s.config.lock.auto_lock_timeout ≤ now - s.last_activity <;>
    simp [check_auto_lock, hunlocked, hpos, hel, lock_app, save_config]

theorem c4_witness :
    ((check_auto_lock sampleUnlocked 60).is_locked = true ↔
      sampleUnlocked.config.lock.auto_lock_timeout
        ≤ 60 - sampleUnlocked.last_activity)
    ∧ (update_activity sampleLocked 42).last_activity = 42 :=
  c4_auto_lock_iff sampleUnlocked 60 sampleLocked 42 rfl (by decide)

/-- C5: when the serial handle is absent (`self.ser` is `None`) or not
open, `send_command` writes nothing to the device (the write log is
unchanged, and nothing is read either) and shows the "Not Connected"
info dialog instead. -/
theorem c5_send_disconnected (s : AppState) (cmd : String) (now : Int)
    (h : s.ser = none ∨ s.ser = some false) :
    (send_command s cmd now).1.written = s.written
    ∧ (send_command s cmd now).1.reads = s.reads
    ∧ (send_command s cmd now).2 = some "Connect to Arduino first!" := by
  rcases h with h | h <;>
    simp [send_command, update_activity, h]

theorem c5_witness :
    (send_command sampleUnlocked "password1" 3).1.written
        = sampleUnlocked.written
    ∧ (send_command sampleUnlocked "password1" 3).1.reads
        = sampleUnlocked.reads
    ∧ (send_command sampleUnlocked "password1" 3).2
        = some "Connect to Arduino first!" :=
  c5_send_disconnected sampleUnlocked "password1" 3 (Or.inl rfl)

theorem utf8Bytes_append (a b : String) :
    utf8Bytes (a ++ b) = utf8Bytes a ++ utf8Bytes b := by
  simp [utf8Bytes, String.data_append, List.flatMap_append]

/-- C8: when connected and open, the bytes `send_command` appends to
the serial device are exactly the UTF-8 encoding of the command
followed by a single newline byte (`(cmd + "\n").encode()`), and the
read count stays untouched (no operation of the model ever reads; the
source never calls a read on `self.ser`). -/
theorem c8_send_connected_bytes (s : AppState) (cmd : String) (now : Int)
    (h : s.ser = some true) :
    (send_command s cmd now).1.written
        = s.written ++ [utf8Bytes cmd ++ [10]]
    ∧ (send_command s cmd now).1.reads = s.reads
    ∧ (send_command s cmd now).2 = none := by
  have hb : utf8Bytes (cmd ++ "\n") = utf8Bytes cmd ++ [10] := by
    rw [utf8Bytes_append]; rfl
  simp [send_command, update_activity, h, hb]

def sampleConnected : AppState := { sampleUnlocked with ser := some true }

theorem c8_witness :
    (send_command sampleConnected "password1" 3).1.written
        = sampleConnected.written ++ [utf8Bytes "password1" ++ [10]]
    ∧ (send_command sampleConnected "password1" 3).1.reads
        = sampleConnected.reads
    ∧ (send_command sampleConnected "password1" 3).2 = none :=
  c8_send_connected_bytes sampleConnected "password1" 3 rfl

theorem on_save_timeout_inv (s : AppState) (t : String)
    (h : lockInvariant s) : lockInvariant (on_save_timeout s t) := by
  unfold lockInvariant at *
  unfold on_save_timeout
  split <;> simp [save_config, h]

/-- C10: the UI lock flag `is_locked` agrees with the configuration
field `lock.enabled` after each lock-state-changing operation: the
initial load (`__init__` reads `is_locked` from `lock.enabled`),
`lock_app` (sets both true), `unlock_app` (sets both false), and the
PIN change / disable callback `on_save` (the disable branches set both
false; the PIN-setting branches touch neither, preserving the
invariant). -/
theorem c10_lock_flag_matches_config :
    (∀ (c : Config) (now : Int) (file : Option Config),
        lockInvariant (init_state c now file))
    ∧ (∀ s : AppState, lockInvariant (lock_app s))
    ∧ (∀ (s : AppState) (now : Int), lockInvariant (unlock_app s now))
    ∧ (∀ (s : AppState) (a b c d : String),
        lockInvariant s → lockInvariant (on_save s a b c d)) := by
  refine ⟨fun c now file => rfl, fun s => rfl, fun s now => rfl, ?_⟩
  intro s a b c d hinv
  simp only [on_save]
  split_ifs <;>
    first
      | exact hinv
      | exact on_save_timeout_inv _ _ hinv
      | exact on_save_timeout_inv _ _ rfl

theorem c10_witness :
    lockInvariant (on_save sampleLocked "1234" "" "" "abc") :=
  c10_lock_flag_matches_config.2.2.2 sampleLocked "1234" "" "" "abc"
    (by decide)

def c6_config : Config :=
  { labels := defaultLabels,
    theme := "dark",
    lock := { enabled := false, pin := "", auto_lock_timeout := 0 } }

/-- A state whose settings file is in sync with the in-memory
configuration, with no PIN set — the state in which the user opens the
"Set Lock PIN" dialog. -/
def c6_state : AppState := init_state c6_config 0 (some c6_config)

/-- C6 (code bug exhibit): in `change_lock_pin.on_save`, entering a
new PIN "1234" together with a non-numeric timeout text "abc" mutates
the in-memory configuration (`config["lock"]["pin"] = "1234"`) and
then returns from the `ValueError` handler BEFORE `save_config()`, so
at the end of the action the on-disk file still holds the old
configuration and differs from the in-memory record. -/
theorem c6_code_bug :
    (on_save c6_state "1234" "" "" "abc").config.lock.pin = "1234"
    ∧ (on_save c6_state "1234" "" "" "abc").savedFile
        ≠ some (on_save c6_state "1234" "" "" "abc").config := by
  decide
